import Mathlib

/-!
Verification of the network-scanner core of this repository
(`backend/app/modules/network_scanner.py`) against its natural-language
specification. Python dictionaries/dataclasses become Lean structures,
methods become explicit state-passing functions, Python exceptions become
`Option`/`Except` results, and `datetime` timestamps become natural-number
seconds. Each definition's doc comment names the source lines it embeds.
-/

/-! ## Risk and recommendation engine (`_assess_scan_risks`, lines 608-653) -/

/-- An element of the `open_ports` list fed to `_assess_scan_risks`: the
dictionaries built in `analyze_scan_results` (lines 510-515) with keys
`target`, `port`, `service`, `protocol`. Only the `port` key is read by the
risk engine. -/
structure OpenPortInfo where
  target : String
  port : Nat
  service : String
  protocol : String
deriving DecidableEq

/-- The fixed high-risk port list of line 618. -/
def high_risk_ports : List Nat := [21, 23, 135, 139, 445, 1433, 3389]

/-- The fixed unencrypted-service name list of line 631. -/
def unencrypted_services : List String := ["ftp", "telnet", "http", "smtp"]

/-- The dictionary returned by `_assess_scan_risks` (lines 647-653). -/
structure RiskAssessment where
  risk_level : String
  risk_score : Nat
  risk_factors : List String
  total_open_ports : Nat
  unique_services : Nat
deriving DecidableEq

/-- The additive score accumulated by `_assess_scan_risks` (lines 614-634)
before the final `min(risk_score, 100)` clamp of line 649, with the three
contributions applied in the source's statement order. The Python
truthiness tests `if found_high_risk_ports:` and `if found_unencrypted:`
are rendered with `List.isEmpty`. -/
def raw_risk_score (open_ports : List OpenPortInfo) (services : List String) : Nat :=
  let score0 : Nat := 0
  let found_high_risk_ports := open_ports.filter (fun p => high_risk_ports.contains p.port)
  let score1 :=
    if found_high_risk_ports.isEmpty then score0
    else score0 + found_high_risk_ports.length * 20
  let score2 := if open_ports.length > 50 then score1 + 30 else score1
  let found_unencrypted := services.filter (fun s => unencrypted_services.contains s)
  if found_unencrypted.isEmpty then score2
  else score2 + found_unencrypted.length * 15

/-- The level ladder of lines 638-645, applied to the unclamped score. -/
def risk_level_of (risk_score : Nat) : String :=
  if risk_score ≥ 100 then "critical"
  else if risk_score ≥ 70 then "high"
  else if risk_score ≥ 40 then "medium"
  else "low"

/-- Model of `NetworkScanner._assess_scan_risks` (lines 608-653): score
accumulation, risk-factor strings, the level ladder on the raw score, and
the `min(risk_score, 100)` clamp on the reported score. -/
def assess_scan_risks (open_ports : List OpenPortInfo) (services : List String) :
    RiskAssessment :=
  let risk_score := raw_risk_score open_ports services
  let found_high_risk_ports := open_ports.filter (fun p => high_risk_ports.contains p.port)
  let found_unencrypted := services.filter (fun s => unencrypted_services.contains s)
  let factors0 : List String := []
  let factors1 :=
    if found_high_risk_ports.isEmpty then factors0
    else factors0 ++ [toString found_high_risk_ports.length ++ " high-risk ports detected"]
  let factors2 :=
    if open_ports.length > 50 then factors1 ++ ["Large attack surface (50+ open ports)"]
    else factors1
  let factors3 :=
    if found_unencrypted.isEmpty then factors2
    else factors2 ++ ["Unencrypted services: " ++ String.intercalate ", " found_unencrypted]
  { risk_level := risk_level_of risk_score
    risk_score := min risk_score 100
    risk_factors := factors3
    total_open_ports := open_ports.length
    unique_services := services.dedup.length }

/-- An open-port record as `analyze_scan_results` would build it, with only
the port number varying. -/
def mkOpenPort (n : Nat) : OpenPortInfo :=
  { target := "host", port := n, service := "unknown", protocol := "tcp" }

/-- The spec's risk-scoring example findings: open ports 445, 3389, 22. -/
def examplePorts3 : List OpenPortInfo := [mkOpenPort 445, mkOpenPort 3389, mkOpenPort 22]

/-- The same findings extended by 48 further open ports (8000-8047, none of
them in the high-risk list), 51 open ports in total. -/
def examplePorts51 : List OpenPortInfo :=
  examplePorts3 ++ (List.range 48).map (fun i => mkOpenPort (8000 + i))

/-! ## Command builder (`_build_nmap_command`, lines 318-361) -/

/-- The `ScanTarget` dataclass (lines 44-51). -/
structure ScanTarget where
  target : String
  target_type : String
  ports : Option (List Nat)
  exclude_ports : Option (List Nat)
  description : String
deriving DecidableEq

/-- The `ScanIntensity` enum (lines 36-41). -/
inductive ScanIntensity
  | light
  | normal
  | aggressive
  | insane
deriving DecidableEq

/-- The `scan_type_map` lookup with default `["-sT"]` (lines 328-338). -/
def scan_type_flags (scan_type : String) : List String :=
  if scan_type = "tcp_connect" then ["-sT"]
  else if scan_type = "tcp_syn" then ["-sS"]
  else if scan_type = "udp" then ["-sU"]
  else if scan_type = "stealth" then ["-sS", "-f"]
  else if scan_type = "version" then ["-sV"]
  else if scan_type = "os" then ["-O"]
  else if scan_type = "comprehensive" then ["-sS", "-sV", "-O", "-A"]
  else ["-sT"]

/-- The `intensity_map` lookup (lines 341-348); every `ScanIntensity`
constructor is a key, so the `.get` default (normal) is unreachable. -/
def intensity_flags : ScanIntensity → List String
  | .light => ["-T1", "--max-retries", "1"]
  | .normal => ["-T3", "--max-retries", "2"]
  | .aggressive => ["-T4", "--max-retries", "3"]
  | .insane => ["-T5", "--max-retries", "5"]

/-- The port-specification block (lines 351-353): Python's truthiness test
`if target.ports:` is false for both `None` and the empty list; otherwise
`",".join(map(str, target.ports))` joins the ports in their given order. -/
def ports_args (ports : Option (List Nat)) : List String :=
  match ports with
  | some ps => if ps.isEmpty then [] else ["-p", String.intercalate "," (ps.map toString)]
  | none => []

/-- Model of `NetworkScanner._build_nmap_command` (lines 318-361): the
argument list grows by `command.extend`/`command.append` in statement
order, ending with the XML-output flags and the target address. -/
def build_nmap_command (target : ScanTarget) (scan_type : String)
    (intensity : ScanIntensity) : List String :=
  ["nmap"] ++ scan_type_flags scan_type ++ intensity_flags intensity
    ++ ports_args target.ports ++ ["-oX", "-"] ++ [target.target]

/-- The port-argument value as claimed by the spec (a comma-joined
ASCENDING list); written from the spec's words, to be compared with
`ports_args`, which joins in the given order. -/
def ascending_comma_join (ps : List Nat) : String :=
  String.intercalate "," ((List.insertionSort (fun a b => a ≤ b) ps).map toString)

/-- A concrete target whose ports list is not ascending. -/
def targetDesc : ScanTarget :=
  { target := "198.51.100.7", target_type := "ip", ports := some [443, 80],
    exclude_ports := none, description := "" }

/-! ## Scanner registry state and control operations (lines 80-83, 655-677) -/

/-- The mutable control block stored in `self.active_scans[scan_id]`
(lines 132-136): the dictionary's `paused` and `cancelled` flags. (The
`result` reference is not read by any control operation.) -/
structure ScanHandle where
  paused : Bool
  cancelled : Bool
deriving DecidableEq

/-- The `RateLimiter` instance state (lines 683-685): the configured
ceiling and the recorded timestamps, as seconds. -/
structure RateLimiterState where
  requests_per_minute : Nat
  request_times : List Nat
deriving DecidableEq

/-- The mutable attributes of `NetworkScanner` touched by the claims under
study (line 81: `self.active_scans`, line 83: `self.rate_limiter`), in
state-passing form. `scan_history` is carried as the list of recorded
result identifiers. -/
structure ScannerState where
  active_scans : String → Option ScanHandle
  rate_limiter : RateLimiterState
  scan_history : List String

/-- Pointwise update of the `active_scans` dictionary, modelling
`self.active_scans[scan_id][flag] = value`. -/
def set_active (st : ScannerState) (scan_id : String) (h : ScanHandle) : ScannerState :=
  { st with active_scans := fun k => if k = scan_id then some h else st.active_scans k }

/-- Model of `NetworkScanner.pause_scan` (lines 655-661): membership test,
flag write on hit, boolean result. -/
def pause_scan (st : ScannerState) (scan_id : String) : Bool × ScannerState :=
  match st.active_scans scan_id with
  | some h => (true, set_active st scan_id { h with paused := true })
  | none => (false, st)

/-- Model of `NetworkScanner.resume_scan` (lines 663-669). -/
def resume_scan (st : ScannerState) (scan_id : String) : Bool × ScannerState :=
  match st.active_scans scan_id with
  | some h => (true, set_active st scan_id { h with paused := false })
  | none => (false, st)

/-- Model of `NetworkScanner.cancel_scan` (lines 671-677). -/
def cancel_scan (st : ScannerState) (scan_id : String) : Bool × ScannerState :=
  match st.active_scans scan_id with
  | some h => (true, set_active st scan_id { h with cancelled := true })
  | none => (false, st)

/-- State-passing form of the method `NetworkScanner._build_nmap_command`:
its body (lines 318-361) reads no attribute of `self` and assigns none, so
the instance state is returned unchanged next to the computed list. -/
def build_nmap_command_method (st : ScannerState) (target : ScanTarget)
    (scan_type : String) (intensity : ScanIntensity) : List String × ScannerState :=
  (build_nmap_command target scan_type intensity, st)

/-- A concrete registry holding exactly one live scan handle. -/
def registry_demo : ScannerState :=
  { active_scans := fun k =>
      if k = "scan-a" then some { paused := false, cancelled := false } else none
    rate_limiter := { requests_per_minute := 100, request_times := [] }
    scan_history := [] }

/-! ## Output parsers (lines 363-476) -/

/-- Split a character list at every character satisfying `p`, keeping empty
pieces, accumulating the current piece in reverse. Structural recursion so
that concrete inputs evaluate inside the kernel. -/
def splitPredChars (p : Char → Bool) : List Char → List Char → List (List Char)
  | [], acc => [acc.reverse]
  | c :: cs, acc =>
      if p c then acc.reverse :: splitPredChars p cs []
      else splitPredChars p cs (c :: acc)

/-- If `sep` is an initial run of `l`, the remainder of `l` after it. -/
def afterMatch : List Char → List Char → Option (List Char)
  | [], l => some l
  | _ :: _, [] => none
  | c :: cs, d :: ds => if c = d then afterMatch cs ds else none

/-- Whether `sep` occurs contiguously anywhere in `l`. -/
def occursIn (sep : List Char) : List Char → Bool
  | [] => (afterMatch sep []).isSome
  | d :: ds => (afterMatch sep (d :: ds)).isSome || occursIn sep ds

/-- Python's `str.split(sep)` for a one-character separator, as used with
`'\n'` (lines 367, 446) and `'/'` (line 455): split at every occurrence,
keeping empty pieces. -/
def pySplitOnChar (c : Char) (s : String) : List String :=
  (splitPredChars (fun d => d = c) s.toList []).map String.mk

/-- Python's argumentless `str.split()`: split on whitespace runs and drop
the empty pieces. -/
def pySplit (s : String) : List String :=
  ((splitPredChars (fun c => c.isWhitespace) s.toList []).map String.mk).filter
    (fun w => w ≠ "")

/-- Python's `int()` on the tokens this code feeds it: a non-empty all-digit
string yields its decimal value, anything else raises `ValueError`
(modelled as `none`). The tokens come from `str.split()`, so they never
carry surrounding whitespace; an explicit sign, which Python would accept,
is not modelled. -/
def pyInt? (s : String) : Option Nat :=
  let l := s.toList
  if l.isEmpty then none
  else if l.all (fun c => c.isDigit) then
    some (l.foldl (fun n c => n * 10 + (c.toNat - 48)) 0)
  else none

/-- Python's argumentless `str.strip()`: remove leading and trailing
whitespace. -/
def pyStrip (s : String) : String :=
  let l := s.toList.dropWhile (fun c => c.isWhitespace)
  String.mk ((l.reverse.dropWhile (fun c => c.isWhitespace)).reverse)

/-- Python's `str.strip('()')` as used on line 373: remove any leading and
trailing parenthesis characters. -/
def strip_paren_chars (s : String) : String :=
  let l := s.toList.dropWhile (fun c => c = '(' || c = ')')
  String.mk ((l.reverse.dropWhile (fun c => c = '(' || c = ')')).reverse)

/-- Python's substring test `sub in s`. -/
def containsSub (s sub : String) : Bool := occursIn sub.toList s.toList

/-- A host entry of `_parse_ping_sweep_results` (lines 374-378 / 382-386). -/
structure HostEntry where
  ip : String
  hostname : Option String
  status : String
deriving DecidableEq

/-- One iteration of the line loop of `NetworkScanner._parse_ping_sweep_results`
(lines 367-386). `none` models an uncaught `IndexError` (`parts[5]` on a
five-token line in the first branch, `parts[4]` in the second branch,
which is only reached when fewer than five tokens exist); `some none`
models a line without the summary marker, which appends nothing. -/
def parse_ping_sweep_line (line : String) : Option (Option HostEntry) :=
  if containsSub line "Nmap scan report for" then
    let parts := pySplit line
    if parts.length ≥ 5 then
      match parts.get? 4, parts.get? 5 with
      | some hostname, some p5 =>
          let ip := strip_paren_chars p5
          some (some { ip := ip
                       hostname := if hostname ≠ ip then some hostname else none
                       status := "up" })
      | _, _ => none
    else
      match parts.get? 4 with
      | some ip => some (some { ip := ip, hostname := none, status := "up" })
      | none => none
  else some none

/-- Model of `NetworkScanner._parse_ping_sweep_results` (lines 363-388):
fold the line iterations, propagating an `IndexError` from any line as
`none` for the whole call. -/
def parse_ping_sweep_results (nmap_output : String) : Option (List HostEntry) :=
  (pySplitOnChar '\n' nmap_output).foldlM
    (fun hosts line =>
      (parse_ping_sweep_line line).map
        (fun r =>
          match r with
          | some h => hosts ++ [h]
          | none => hosts))
    []

/-- A `<service>` element's attributes as read on lines 419-422; an absent
attribute is `none`. -/
structure XService where
  name : Option String
  version : Option String
  product : Option String
deriving DecidableEq

/-- A `<port>` element as read on lines 408-422. The `portid` attribute is
taken as a parsed number and the `<state>` child as present, matching the
well-formed documents the primary path is specified for. -/
structure XPort where
  portid : Nat
  protocol : Option String
  state : String
  service : Option XService
deriving DecidableEq

/-- An `<address>` element as read on lines 402-404. -/
structure XAddress where
  addrtype : String
  addr : String
deriving DecidableEq

/-- A `<host>` element as read on lines 400-433. The `<ports>` container
level is flattened: the source's two nested `findall` loops only
concatenate the containers' `<port>` children in order. -/
structure XHost where
  addresses : List XAddress
  ports : List XPort
deriving DecidableEq

/-- An entry of `results["ports"]` (lines 409-422). When no `<service>`
child exists the source leaves `service`/`version` as `None` and never
adds the `product` key; the absent key is modelled as `none`. -/
structure PortInfo where
  port : Nat
  protocol : Option String
  state : String
  service : Option String
  version : Option String
  product : Option String
deriving DecidableEq

/-- An entry of `results["services"]` (lines 428-433 and 469-474). -/
structure ServiceEntry where
  port : Nat
  service : String
  version : Option String
  product : Option String
deriving DecidableEq

/-- The findings dictionary shared by both parser paths (lines 394-398 and
444): `ports`, `host_info` (its only key, `ip`), and `services`. -/
structure Findings where
  ports : List PortInfo
  host_ip : Option String
  services : List ServiceEntry
deriving DecidableEq

/-- The empty findings dictionary both paths start from. -/
def emptyFindings : Findings := { ports := [], host_ip := none, services := [] }

/-- The structured-path host loop of `_parse_port_scan_results`
(lines 400-433). Python's truthiness test `if port_info["service"]:` on
line 427 is false for both `None` and the empty string. -/
def parse_xml_hosts (hosts : List XHost) : Findings :=
  hosts.foldl
    (fun acc host =>
      let acc := host.addresses.foldl
        (fun a addr => if addr.addrtype = "ipv4" then { a with host_ip := some addr.addr } else a)
        acc
      host.ports.foldl
        (fun a p =>
          let service_name := p.service.bind (fun s => s.name)
          let port_info : PortInfo :=
            { port := p.portid, protocol := p.protocol, state := p.state
              service := service_name
              version := p.service.bind (fun s => s.version)
              product := p.service.bind (fun s => s.product) }
          let a := { a with ports := a.ports ++ [port_info] }
          match service_name with
          | some sname =>
              if sname = "" then a
              else { a with services := a.services ++
                      [{ port := p.portid, service := sname
                         version := port_info.version, product := port_info.product }] }
          | none => a)
        acc)
    emptyFindings

/-- One iteration of the line loop of `NetworkScanner._parse_port_scan_text`
(lines 447-474). `none` models the uncaught `ValueError` of
`int(port_num)` on a non-numeric port token; every other line shape
leaves the accumulator unchanged or appends one port (and one service
entry when the positional service token is distinct from "unknown"). -/
def parse_text_line (results : Findings) (rawLine : String) : Option Findings :=
  let line := pyStrip rawLine
  if containsSub line "/tcp" && (containsSub line "open" || containsSub line "filtered") then
    let parts := pySplit line
    if parts.length ≥ 2 then
      match parts.get? 0, parts.get? 1 with
      | some port_proto, some state =>
          let service := if parts.length > 2 then (parts.get? 2).getD "unknown" else "unknown"
          let port_num := ((pySplitOnChar '/' port_proto).get? 0).getD ""
          match pyInt? port_num with
          | some pn =>
              let port_info : PortInfo :=
                { port := pn, protocol := some "tcp", state := state
                  service := some service, version := none, product := none }
              let results := { results with ports := results.ports ++ [port_info] }
              if service = "unknown" then some results
              else some { results with services := results.services ++
                            [{ port := pn, service := service, version := none, product := none }] }
          | none => none
      | _, _ => some results
    else some results
  else some results

/-- Model of `NetworkScanner._parse_port_scan_text` (lines 442-476). -/
def parse_port_scan_text (text_output : String) : Option Findings :=
  (pySplitOnChar '\n' text_output).foldlM parse_text_line emptyFindings

/-- The outcome of `ET.fromstring` on the raw output (line 393): either the
`ET.ParseError` of a malformed document, or the parsed host tree. -/
inductive XmlOutcome
  | parseError
  | parsed (hosts : List XHost)
deriving DecidableEq

/-- The raw scanner output as seen by `_parse_port_scan_results`: the text
itself together with what `ET.fromstring` yields on it. -/
structure RawOutput where
  xml : XmlOutcome
  text : String
deriving DecidableEq

/-- Model of `NetworkScanner._parse_port_scan_results` (lines 390-440): the
structured path on a successful parse, and the text fallback exactly when
`ET.fromstring` raises `ET.ParseError` (the sole `except` clause,
line 437). -/
def parse_port_scan_results (raw : RawOutput) : Option Findings :=
  match raw.xml with
  | .parsed hosts => some (parse_xml_hosts hosts)
  | .parseError => parse_port_scan_text raw.text

/-! ## Rate limiter (`RateLimiter`, lines 680-707) and the missing import -/

/-- A Python runtime exception relevant to this module: the `NameError` of
an unresolvable identifier, and the `ValueError` of `min([])`. -/
inductive PyErr
  | nameError
  | valueError
deriving DecidableEq

/-- The identifiers bound at module scope of `network_scanner.py`: what its
imports bind (lines 8-21) and its top-level definitions (the classes, the
module-level instance of line 711). Line 13 reads
`from datetime import datetime`, so `datetime` is bound but `timedelta` is
not; `timedelta` is not a Python builtin either. -/
def network_scanner_module_names : List String :=
  ["asyncio", "subprocess", "json", "ET", "Dict", "List", "Optional", "Any",
   "Callable", "datetime", "Enum", "dataclass", "ipaddress", "socket",
   "logger", "settings", "ai_service", "ScanType", "ScanIntensity",
   "ScanTarget", "ScanResult", "NetworkScanner", "RateLimiter",
   "network_scanner"]

/-- Whether a global name used inside `RateLimiter.wait` resolves: the
method body assigns no local of that name, so resolution falls through to
the module scope listed above (builtins hold none of the names this body
uses globally besides `len`/`min`, which are modelled directly). -/
def resolves (n : String) : Bool := network_scanner_module_names.contains n

/-- Model of `RateLimiter.wait` (lines 687-707), timestamps in seconds.
The first statement after `now = datetime.utcnow()` evaluates
`now - timedelta(minutes=1)`; when `timedelta` does not resolve this
raises `NameError` before any trimming, waiting, or recording. Were the
name resolvable, the body would trim timestamps to those strictly newer
than `now - 60`, and, when the retained count has reached the ceiling,
suspend until `min(request_times) + 60` (not at all if that lies in the
past), then append the entry timestamp `now`; the returned number is the
time at which the call returns. `min([])`, reachable only with a ceiling
of zero, raises `ValueError`. -/
def RateLimiterState.wait (rl : RateLimiterState) (now : Nat) :
    Except PyErr (RateLimiterState × Nat) :=
  if resolves "timedelta" then
    let kept := rl.request_times.filter (fun (t : Nat) => decide ((t : Int) > (now : Int) - 60))
    if kept.length ≥ rl.requests_per_minute then
      match kept.min? with
      | some oldest =>
          let wake := if ((oldest + 60 : Int) - now) > 0 then oldest + 60 else now
          .ok ({ rl with request_times := kept ++ [now] }, wake)
      | none => .error .valueError
    else .ok ({ rl with request_times := kept ++ [now] }, now)
  else .error .nameError

/-! ## The `port_scan` batch loop (lines 198-253) -/

/-- Outcome of a coroutine call: a normal return, an uncaught exception, or
still suspended (never completing within the modelled schedule). -/
inductive BatchOutcome
  | returned (statuses : List String)
  | raised (e : PyErr)
  | pending
deriving DecidableEq

/-- The pause poll `while self.active_scans[scan_id].get("paused", False):
await asyncio.sleep(1)` (lines 236-237): returns the suspension step at
which the flag is observed clear, or `none` when it is still set after
`fuel` polls (the coroutine then remains suspended within the modelled
schedule). `regAt n` is the registry as observed at suspension step `n`;
an entry vanishing mid-poll (a `KeyError` in the source) is not modelled,
as no claim reaches that interleaving. -/
def pause_poll (regAt : Nat → String → Option ScanHandle) (scan_id : String) :
    Nat → Nat → Option Nat
  | 0, _ => none
  | fuel + 1, step =>
      match regAt step scan_id with
      | some h =>
          if h.paused then pause_poll regAt scan_id fuel (step + 1) else some step
      | none => some step

/-- The target loop of `NetworkScanner.port_scan` (lines 225-248) with the
concurrent environment made explicit: `regAt n` gives `self.active_scans`
at the n-th suspension point, so `cancel_scan`/`pause_scan` calls from
other tasks appear as changes in `regAt`; `runTarget` abstracts
`_scan_single_target`, whose `try`/`except` keeps every exception inside
itself and yields a result status string. Before each target the loop
checks the registry for its `scan_id` (cancel, then the pause poll) and
then awaits `self.rate_limiter.wait()`; an exception from `wait`
propagates out of `port_scan` uncaught, since no `try` surrounds the loop.
The step index doubles as the clock passed to the rate limiter; nothing
downstream depends on that identification because `wait` raises before
reading it. -/
def port_scan_loop (regAt : Nat → String → Option ScanHandle) (scan_id : String)
    (runTarget : ScanTarget → String) (fuel : Nat) :
    List ScanTarget → Nat → RateLimiterState → List String → BatchOutcome
  | [], _, _, acc => .returned acc
  | t :: ts, step, rl, acc =>
      match regAt step scan_id with
      | some h =>
          if h.cancelled then .returned acc
          else
            match pause_poll regAt scan_id fuel step with
            | some step2 =>
                match rl.wait step2 with
                | .error e => .raised e
                | .ok (rl2, wake) =>
                    port_scan_loop regAt scan_id runTarget fuel ts (wake + 1) rl2
                      (acc ++ [runTarget t])
            | none => .pending
      | none =>
          match rl.wait step with
          | .error e => .raised e
          | .ok (rl2, wake) =>
              port_scan_loop regAt scan_id runTarget fuel ts (wake + 1) rl2
                (acc ++ [runTarget t])

/-- Model of `NetworkScanner.port_scan` (lines 198-253) after its prologue:
the prologue (lines 219-223) only forms the fresh
`port_scan_<timestamp>` id and never inserts it into `active_scans` — the
sole insertion in the module is `ping_sweep`'s, under a
`ping_sweep_<timestamp>` id (line 132) — so the loop starts with whatever
registry the environment provides and the result list starts empty. -/
def port_scan_model (regAt : Nat → String → Option ScanHandle) (scan_id : String)
    (runTarget : ScanTarget → String) (fuel : Nat) (targets : List ScanTarget)
    (rl : RateLimiterState) : BatchOutcome :=
  port_scan_loop regAt scan_id runTarget fuel targets 0 rl []

/-- Five concrete batch targets. -/
def batch_targets5 : List ScanTarget :=
  [{ target := "10.0.0.1", target_type := "ip", ports := none, exclude_ports := none,
     description := "" },
   { target := "10.0.0.2", target_type := "ip", ports := none, exclude_ports := none,
     description := "" },
   { target := "10.0.0.3", target_type := "ip", ports := none, exclude_ports := none,
     description := "" },
   { target := "10.0.0.4", target_type := "ip", ports := none, exclude_ports := none,
     description := "" },
   { target := "10.0.0.5", target_type := "ip", ports := none, exclude_ports := none,
     description := "" }]

/-- A scanner state with an empty registry, as `port_scan` finds it when no
ping sweep is in flight. -/
def emptyScanner : ScannerState :=
  { active_scans := fun _ => none
    rate_limiter := { requests_per_minute := 100, request_times := [] }
    scan_history := [] }

/-! ## Theorems -/

theorem assess_risk_level_eq (op : List OpenPortInfo) (sv : List String) :
    (assess_scan_risks op sv).risk_level = risk_level_of (raw_risk_score op sv) := rfl

theorem assess_risk_score_eq (op : List OpenPortInfo) (sv : List String) :
    (assess_scan_risks op sv).risk_score = min (raw_risk_score op sv) 100 := rfl

/-- C1: on the example findings (open ports 445, 3389, 22; the single
service name ftp) `_assess_scan_risks` scores 20+20+15 = 55 at level
"medium"; the same findings extended to 51 open ports in total (the added
ports outside the high-risk list) gain exactly the flat +30, the reported
score stays within [0,100], and the level is "high"; in general the
reported score is the raw score clamped by `min · 100`, and the level is
"critical" iff the raw (pre-clamp) score is at least 100, "high" iff it
lies in 70-99, "medium" iff in 40-69, and "low" iff below 40. -/
theorem C1_risk_scoring_and_thresholds :
    raw_risk_score examplePorts3 ["ftp"] = 55 ∧
    (assess_scan_risks examplePorts3 ["ftp"]).risk_score = 55 ∧
    (assess_scan_risks examplePorts3 ["ftp"]).risk_level = "medium" ∧
    raw_risk_score examplePorts51 ["ftp"] = raw_risk_score examplePorts3 ["ftp"] + 30 ∧
    (assess_scan_risks examplePorts51 ["ftp"]).risk_score ≤ 100 ∧
    (assess_scan_risks examplePorts51 ["ftp"]).risk_level = "high" ∧
    (∀ op sv, (assess_scan_risks op sv).risk_score = min (raw_risk_score op sv) 100) ∧
    (∀ op sv,
      ((assess_scan_risks op sv).risk_level = "critical" ↔ 100 ≤ raw_risk_score op sv) ∧
      ((assess_scan_risks op sv).risk_level = "high" ↔
        70 ≤ raw_risk_score op sv ∧ raw_risk_score op sv ≤ 99) ∧
      ((assess_scan_risks op sv).risk_level = "medium" ↔
        40 ≤ raw_risk_score op sv ∧ raw_risk_score op sv ≤ 69) ∧
      ((assess_scan_risks op sv).risk_level = "low" ↔ raw_risk_score op sv < 40)) := by
  refine ⟨by decide, by decide, by decide, by decide, by decide, by decide,
    fun op sv => rfl, fun op sv => ?_⟩
  rw [assess_risk_level_eq]
  unfold risk_level_of
  set S := raw_risk_score op sv with hS
  by_cases h1 : S ≥ 100
  · rw [if_pos h1]
    exact ⟨iff_of_true rfl h1, iff_of_false (by decide) (by omega),
           iff_of_false (by decide) (by omega), iff_of_false (by decide) (by omega)⟩
  · rw [if_neg h1]
    by_cases h2 : S ≥ 70
    · rw [if_pos h2]
      exact ⟨iff_of_false (by decide) (by omega), iff_of_true rfl ⟨h2, by omega⟩,
             iff_of_false (by decide) (by omega), iff_of_false (by decide) (by omega)⟩
    · rw [if_neg h2]
      by_cases h3 : S ≥ 40
      · rw [if_pos h3]
        exact ⟨iff_of_false (by decide) (by omega), iff_of_false (by decide) (by omega),
               iff_of_true rfl ⟨h3, by omega⟩, iff_of_false (by decide) (by omega)⟩
      · rw [if_neg h3]
        exact ⟨iff_of_false (by decide) (by omega), iff_of_false (by decide) (by omega),
               iff_of_false (by decide) (by omega), iff_of_true rfl (by omega)⟩

/-- C4 counterexample: with no open ports and the service list
["ftp", "ftp"], `_assess_scan_risks` adds 15 per occurrence and scores 30,
while the claim's once-per-distinct-name reading predicts 15. -/
theorem C4_duplicate_service_counted_twice :
    raw_risk_score [] ["ftp", "ftp"] = 30 ∧
    (["ftp", "ftp"].filter (fun s => unencrypted_services.contains s)).dedup.length * 15
      = 15 := by decide

/-- C4 (amended): the unencrypted-service contribution of
`_assess_scan_risks` is +15 per occurrence of a service name from the set
{ftp, telnet, http, smtp} in the input service list, duplicates counted
each time they occur. -/
theorem C4_unencrypted_per_occurrence (open_ports : List OpenPortInfo)
    (services : List String) :
    raw_risk_score open_ports services =
      raw_risk_score open_ports [] +
        (services.filter (fun s => unencrypted_services.contains s)).length * 15 := by
  simp only [raw_risk_score]
  generalize services.filter (fun s => unencrypted_services.contains s) = fu
  cases fu with
  | nil => simp
  | cons a l => simp

/-- C5 counterexample: for a target listing ports as [443, 80], the built
command carries the port argument "443,80" — the given order — not the
ascending join "80,443" the claim states. -/
theorem C5_ports_not_sorted_cex :
    build_nmap_command targetDesc "tcp_connect" ScanIntensity.normal =
      ["nmap", "-sT", "-T3", "--max-retries", "2", "-p", "443,80", "-oX", "-",
       "198.51.100.7"] ∧
    ascending_comma_join [443, 80] = "80,443" ∧
    ("443,80" : String) ≠ "80,443" := by decide

/-- C5 (amended): for every target whose ports list is non-empty,
`_build_nmap_command` appends "-p" followed by the ports joined by commas
in the order given in the list (duplicates preserved, no sorting). -/
theorem C5_ports_joined_in_given_order (t : ScanTarget) (scan_type : String)
    (i : ScanIntensity) (ps : List Nat) (hps : t.ports = some ps) (hne : ps ≠ []) :
    build_nmap_command t scan_type i =
      ["nmap"] ++ scan_type_flags scan_type ++ intensity_flags i ++
        ["-p", String.intercalate "," (ps.map toString)] ++ ["-oX", "-", t.target] := by
  cases ps with
  | nil => exact absurd rfl hne
  | cons a l => simp [build_nmap_command, ports_args, hps]

/-- Witness for C5 (amended), at the concrete target with ports [443, 80]. -/
theorem C5_ports_joined_in_given_order_witness :
    build_nmap_command targetDesc "udp" ScanIntensity.light =
      ["nmap"] ++ scan_type_flags "udp" ++ intensity_flags ScanIntensity.light ++
        ["-p", String.intercalate "," (([443, 80] : List Nat).map toString)] ++
        ["-oX", "-", targetDesc.target] :=
  C5_ports_joined_in_given_order targetDesc "udp" ScanIntensity.light [443, 80] rfl
    (by decide)

/-- C10: every scan_type outside the seven recognized keys falls back to
the TCP-connect flags ["-sT"], and for all inputs the command ends with
the structured-output flags "-oX" "-" and the target address. -/
theorem C10_unknown_type_and_suffix :
    (∀ scan_type : String,
      scan_type ∉ ["tcp_connect", "tcp_syn", "udp", "stealth", "version", "os",
        "comprehensive"] →
      scan_type_flags scan_type = ["-sT"]) ∧
    (∀ (t : ScanTarget) (scan_type : String) (i : ScanIntensity),
      ∃ pre, build_nmap_command t scan_type i = pre ++ ["-oX", "-", t.target]) := by
  constructor
  · intro s hs
    simp only [List.mem_cons, List.not_mem_nil, or_false, not_or] at hs
    obtain ⟨n1, n2, n3, n4, n5, n6, n7⟩ := hs
    simp [scan_type_flags, n1, n2, n3, n4, n5, n6, n7]
  · intro t s i
    exact ⟨["nmap"] ++ scan_type_flags s ++ intensity_flags i ++ ports_args t.ports,
      by simp [build_nmap_command]⟩

/-- Witness for C10, at the unrecognized scan type "xmas". -/
theorem C10_unknown_type_and_suffix_witness :
    scan_type_flags "xmas" = ["-sT"] ∧
    ∃ pre, build_nmap_command targetDesc "xmas" ScanIntensity.insane =
      pre ++ ["-oX", "-", targetDesc.target] :=
  ⟨C10_unknown_type_and_suffix.1 "xmas" (by decide),
   C10_unknown_type_and_suffix.2 targetDesc "xmas" ScanIntensity.insane⟩

/-- C8: `_build_nmap_command` is pure and deterministic: the produced
argument list does not depend on the scanner state, a repeated call — also
on the state a previous call returned — gives an identical list, and the
state comes back unchanged. -/
theorem C8_build_command_pure :
    (∀ (st st2 : ScannerState) (t : ScanTarget) (s : String) (i : ScanIntensity),
      (build_nmap_command_method st t s i).1 = (build_nmap_command_method st2 t s i).1) ∧
    (∀ (st : ScannerState) (t : ScanTarget) (s : String) (i : ScanIntensity),
      (build_nmap_command_method st t s i).2 = st) ∧
    (∀ (st : ScannerState) (t : ScanTarget) (s : String) (i : ScanIntensity),
      (build_nmap_command_method (build_nmap_command_method st t s i).2 t s i).1 =
        (build_nmap_command_method st t s i).1) :=
  ⟨fun _ _ _ _ _ => rfl, fun _ _ _ _ => rfl, fun _ _ _ _ => rfl⟩

/-- C9: on an unknown scan id each control operation returns false and
leaves the state untouched; on a registered id each returns true and
flips only its own flag of that one handle (other registry keys, the
other flag, the rate limiter and the history are unchanged), and a second
`pause_scan` leaves the handle paused. -/
theorem C9_control_ops (st : ScannerState) (scan_id : String) :
    (st.active_scans scan_id = none →
      pause_scan st scan_id = (false, st) ∧ resume_scan st scan_id = (false, st) ∧
      cancel_scan st scan_id = (false, st)) ∧
    (∀ h : ScanHandle, st.active_scans scan_id = some h →
      (pause_scan st scan_id).1 = true ∧
      (pause_scan st scan_id).2.active_scans scan_id = some { h with paused := true } ∧
      (∀ k, k ≠ scan_id → (pause_scan st scan_id).2.active_scans k = st.active_scans k) ∧
      (pause_scan st scan_id).2.rate_limiter = st.rate_limiter ∧
      (pause_scan st scan_id).2.scan_history = st.scan_history ∧
      (resume_scan st scan_id).1 = true ∧
      (resume_scan st scan_id).2.active_scans scan_id = some { h with paused := false } ∧
      (∀ k, k ≠ scan_id → (resume_scan st scan_id).2.active_scans k = st.active_scans k) ∧
      (cancel_scan st scan_id).1 = true ∧
      (cancel_scan st scan_id).2.active_scans scan_id = some { h with cancelled := true } ∧
      (∀ k, k ≠ scan_id → (cancel_scan st scan_id).2.active_scans k = st.active_scans k) ∧
      (pause_scan (pause_scan st scan_id).2 scan_id).2.active_scans scan_id =
        some { h with paused := true }) := by
  constructor
  · intro hn
    exact ⟨by simp [pause_scan, hn], by simp [resume_scan, hn], by simp [cancel_scan, hn]⟩
  · intro h hh
    refine ⟨by simp [pause_scan, hh], by simp [pause_scan, hh, set_active], ?_,
      by simp [pause_scan, hh, set_active], by simp [pause_scan, hh, set_active],
      by simp [resume_scan, hh], by simp [resume_scan, hh, set_active], ?_,
      by simp [cancel_scan, hh], by simp [cancel_scan, hh, set_active], ?_, ?_⟩
    · intro k hk
      simp [pause_scan, hh, set_active, hk]
    · intro k hk
      simp [resume_scan, hh, set_active, hk]
    · intro k hk
      simp [cancel_scan, hh, set_active, hk]
    · simp [pause_scan, hh, set_active]

/-- Witness for C9, on a registry holding only the id "scan-a": the unknown
id "scan-b" is refused with the state unchanged, the known id is paused,
and pausing twice leaves it paused. -/
theorem C9_control_ops_witness :
    pause_scan registry_demo "scan-b" = (false, registry_demo) ∧
    (pause_scan registry_demo "scan-a").1 = true ∧
    (pause_scan (pause_scan registry_demo "scan-a").2 "scan-a").2.active_scans "scan-a" =
      some { paused := true, cancelled := false } := by
  have hb := (C9_control_ops registry_demo "scan-b").1 (by decide)
  have ha := (C9_control_ops registry_demo "scan-a").2
    { paused := false, cancelled := false } (by decide)
  exact ⟨hb.1, ha.1, ha.2.2.2.2.2.2.2.2.2.2.2⟩

/-- C3: contrary to the claim that the admit operation always returns,
every call of `RateLimiter.wait` raises `NameError`: the body's identifier
`timedelta` is bound neither locally nor at module scope (line 13 imports
only `datetime` from the `datetime` package) nor among builtins, so no
trimming, waiting, or timestamp recording is ever reached. -/
theorem C3_wait_always_raises (rl : RateLimiterState) (now : Nat) :
    RateLimiterState.wait rl now = .error .nameError := by
  have h : resolves "timedelta" = false := by decide
  simp [RateLimiterState.wait, h]

/-- C2: evaluating `port_scan` on the claim's scenario of a five-target
batch: `cancel_scan` on the batch's fresh scan id returns false without
inserting anything (the batch never registers the id), and the batch
itself raises `NameError` at the very first iteration when it awaits
`self.rate_limiter.wait()`, so no result list — of any length — is ever
returned. -/
theorem C2_port_scan_batch_raises :
    cancel_scan emptyScanner "port_scan_2026-10-12T00:00:00" = (false, emptyScanner) ∧
    port_scan_model (fun _ _ => none) "port_scan_2026-10-12T00:00:00"
      (fun _ => "completed") 8 batch_targets5 emptyScanner.rate_limiter =
      .raised .nameError := by
  exact ⟨rfl, by decide⟩

/-- C6: `_parse_ping_sweep_results` is not total: the standard summary line
of a host with no separate hostname has exactly five tokens, enters the
`len(parts) >= 5` branch, and `parts[5]` raises `IndexError` (modelled as
`none`), where the claim expects the entry {ip, hostname: null,
status: up} without raising. -/
theorem C6_index_error_on_bare_ip :
    parse_ping_sweep_results "Nmap scan report for 192.168.1.1" = none ∧
    parse_ping_sweep_line "Nmap scan report for 192.168.1.1" = none ∧
    pySplit "Nmap scan report for 192.168.1.1" =
      ["Nmap", "scan", "report", "for", "192.168.1.1"] := by decide

/-- C7: the text fallback runs exactly when `ET.fromstring` raises a format
error; a successful structured parse — in particular one with an empty
findings set — returns the structured result and never the fallback's, and
both paths produce the same `Findings` shape. The closing conjuncts show
it concretely: an empty well-formed document yields empty findings even
when the raw text would have yielded a port on the fallback path. -/
theorem C7_fallback_iff_format_error :
    (∀ text, parse_port_scan_results { xml := .parseError, text := text } =
      parse_port_scan_text text) ∧
    (∀ hosts text, parse_port_scan_results { xml := .parsed hosts, text := text } =
      some (parse_xml_hosts hosts)) ∧
    parse_port_scan_results { xml := .parsed [], text := "8080/tcp open http" } =
      some emptyFindings ∧
    parse_port_scan_text "8080/tcp open http" ≠ some emptyFindings := by
  exact ⟨fun _ => rfl, fun _ _ => rfl, rfl, by decide⟩
